import Mathlib

/-!
Verification of the aiowatttime client library (a credentialed HTTP client for
the WattTime REST API) against its natural-language specification.

The development is a shallow embedding of the three source modules:

* src/aiowatttime/errors.py   — the error taxonomy and the classifier
  (the function is defined as raise_error in errors.py; client.py refers to
  the same function under the name raise_client_error);
* src/aiowatttime/client.py   — the Request Engine (Client._async_request,
  its retry/re-authentication loop) and the Authenticator
  (Client.async_authenticate);
* src/aiowatttime/emissions.py — the emissions endpoint group and its
  start/end datetime validation helper.

Python dicts that carry response payloads are modelled as association lists
with string values (keys are assumed unique, which holds for every payload the
library touches); JSON bodies are either such a dict or a list of dicts, which
is exactly the shape the client declares (dict[str, Any] | list[dict[str, Any]]).
The HTTP transport is modelled as an oracle assigning to every issued call
(numbered in issue order) one of three outcomes: the body fails to parse as
JSON (aiohttp ContentTypeError), the body parses and raise_for_status passes,
or the body parses and raise_for_status raises a ClientError.  Raised Python
exceptions are modelled as values of an error type that also includes the raw
(untyped) exceptions the code can produce (UnboundLocalError, KeyError,
TypeError, AttributeError).
-/

namespace Aiowatttime

/-- A JSON body as the client sees it after resp.json(): either an object with
string fields or an array of such objects. -/
inductive JsonVal where
  | dict (entries : List (String × String))
  | arr (items : List (List (String × String)))
deriving DecidableEq, Repr

/-- Lookup in a Python dict modelled as an association list (keys unique). -/
def dictGet (d : List (String × String)) (k : String) : Option String :=
  (d.find? (fun p => p.1 == k)).map (fun p => p.2)

/-- Whether needle occurs as a contiguous sublist of hay. -/
def infixOfList (needle hay : List Char) : Bool :=
  match hay with
  | [] => List.isPrefixOf needle []
  | _ :: rest => List.isPrefixOf needle hay || infixOfList needle rest

/-- Python substring containment: needle in hay. -/
def strIncludes (hay needle : String) : Bool :=
  infixOfList needle.data hay.data

/-- The exceptions the library can raise.  The first five are the typed
WattTime errors of errors.py plus the ValueError used for parameter
validation; the last four model raw Python exceptions that escape from the
code (they are not part of the typed taxonomy). -/
inductive PyError where
  | invalidCredentials (msg : String)
  | invalidScope (msg : String)
  | requestError (msg : String)
  | usernameTaken (msg : String)
  | valueError (msg : String)
  | unboundLocalError
  | keyError (key : String)
  | typeError
  | attributeError
deriving DecidableEq, Repr

/-- The message text carried by an exception (str(err) in Python); the raw
exceptions carry their interpreter-generated text, irrelevant here. -/
def PyError.text : PyError → String
  | .invalidCredentials m => m
  | .invalidScope m => m
  | .requestError m => m
  | .usernameTaken m => m
  | .valueError m => m
  | .unboundLocalError => "local variable referenced before assignment"
  | .keyError k => k
  | .typeError => "list indices must be integers or slices, not str"
  | .attributeError => "NoneType object has no attribute isoformat"

/-- Whether an exception belongs to the typed WattTime taxonomy of errors.py
(a subclass of WattTimeError). -/
def PyError.isWattTimeError : PyError → Bool
  | .invalidCredentials _ => true
  | .invalidScope _ => true
  | .requestError _ => true
  | .usernameTaken _ => true
  | _ => false

/-- errors.py, ERROR_MESSAGE_TO_EXCEPTION_MAP: known message phrases mapped to
exception constructors. -/
def ERROR_MESSAGE_TO_EXCEPTION_MAP : List (String × (String → PyError)) :=
  [("Invalid scope", PyError.invalidScope),
   ("That username is taken", PyError.usernameTaken)]

/-- The f-string of the final raise in errors.py raise_error. -/
def errorRequestMessage (endpoint msg : String) : String :=
  "Error while requesting /" ++ endpoint ++ ": " ++ msg

/-- errors.py lines 58-63: the single-match list comprehension over
ERROR_MESSAGE_TO_EXCEPTION_MAP and the final raise.  A unique phrase match
picks the mapped exception; zero or several matches raise ValueError, which is
caught and replaced by RequestError. -/
def raiseMatchedError (endpoint msg : String) : PyError :=
  match ERROR_MESSAGE_TO_EXCEPTION_MAP.filter (fun p => strIncludes msg p.1) with
  | [p] => p.2 (errorRequestMessage endpoint msg)
  | _ => PyError.requestError (errorRequestMessage endpoint msg)

/-- errors.py raise_error (imported by client.py as raise_client_error),
restricted to a dict body: classify an HTTP failure into an exception.
errIsContentTypeError models isinstance(err, ContentTypeError).  When the dict
has neither a message nor an error field, the local variable msg is never
assigned and the list comprehension raises UnboundLocalError. -/
def raise_error (endpoint : String) (data : List (String × String))
    (errIsContentTypeError : Bool) : PyError :=
  if errIsContentTypeError then
    PyError.invalidCredentials "Invalid credentials"
  else
    match dictGet data "message" with
    | some msg => raiseMatchedError endpoint msg
    | none =>
      match dictGet data "error" with
      | some msg => raiseMatchedError endpoint msg
      | none => PyError.unboundLocalError

/-- raise_error as invoked from client.py line 198 on the full payload: the
cast to dict is a runtime no-op, so a list body reaches raise_error unchanged,
where the Python expressions (quote) message in data (unquote) and (quote)
error in data (unquote) are membership tests among the list elements and are
false, leaving msg unassigned. -/
def raise_client_error (endpoint : String) (data : JsonVal)
    (errIsContentTypeError : Bool) : PyError :=
  match data with
  | .dict d => raise_error endpoint d errIsContentTypeError
  | .arr _ =>
    if errIsContentTypeError then PyError.invalidCredentials "Invalid credentials"
    else PyError.unboundLocalError

/-- Python truthiness of an optional string (None and the empty string are
falsy); used for the checks (quote) if self._token (unquote) and (quote) if
self._username and self._password (unquote). -/
def pyTruthy : Option String → Bool
  | none => false
  | some s => !s.isEmpty

/-- One HTTP call as issued on the wire by Client._async_request: its method,
endpoint, the Authorization bearer header attached (if any), and whether
BasicAuth credentials were attached via the auth kwarg. -/
structure IssuedCall where
  method : String
  endpoint : String
  bearer : Option String
  basicAuth : Bool
deriving DecidableEq, Repr

/-- The mutable client state threaded through the engine: the token and
credential slots of Client, plus the trace of all HTTP calls issued so far
(in issue order). -/
structure ClientState where
  token : Option String
  username : Option String
  password : Option String
  calls : List IssuedCall
deriving DecidableEq, Repr

/-- What the transport returns for one issued call: the body fails to parse as
JSON (aiohttp ContentTypeError from resp.json()), or it parses and
resp.raise_for_status() passes, or it parses and raise_for_status() raises a
ClientError. -/
inductive HttpResp where
  | nonJson
  | jsonOk (data : JsonVal)
  | jsonErr (data : JsonVal)
deriving DecidableEq, Repr

/-- A transport oracle: the response to the i-th HTTP call issued (counting
every call of the client, login calls included). -/
def Resp : Type := Nat → HttpResp

/-- The result of one _async_request invocation: the returned payload or the
exception propagated to the caller. -/
inductive Outcome where
  | ok (data : JsonVal)
  | err (e : PyError)
deriving DecidableEq, Repr

/-- Whether the call returned normally. -/
def Outcome.isOk : Outcome → Bool
  | .ok _ => true
  | .err _ => false

/-- Overwriting of the Authorization header (client.py lines 168-169): the
kwargs headers entry is replaced by the current token when that token is
truthy, and otherwise keeps its previous value. -/
def nextHeader (s : ClientState) (header : Option String) : Option String :=
  if pyTruthy s.token then s.token else header

/-- Appending one issued call to the trace. -/
def pushCall (s : ClientState) (c : IssuedCall) : ClientState :=
  { s with calls := s.calls ++ [c] }

/-- The call the Authenticator issues: get /login with BasicAuth attached and
a fresh kwargs dict (so the Authorization header starts absent). -/
def loginCall (s : ClientState) : IssuedCall :=
  ⟨"get", "login", nextHeader s none, true⟩

/-- Client._async_request specialized to the call the Authenticator makes
(client.py lines 220-229): method get, endpoint login, BasicAuth attached,
fresh kwargs.  At endpoint login every iteration of the while loop terminates
the call (a ContentTypeError raises InvalidCredentialsError immediately, a
parsed error body raises via raise_client_error, success breaks), so at most
one request is issued and the loop never reaches a second iteration;
loginRequest_eq_async_request below proves this specialization equal to the
general engine.  With request_retries below one the loop body never runs and
the while-else raises InvalidCredentialsError. -/
def loginRequest (o : Resp) (retries : Int) (s : ClientState) :
    ClientState × Outcome :=
  if 0 < retries then
    match o s.calls.length with
    | .nonJson =>
      (pushCall s (loginCall s), .err (PyError.invalidCredentials "Invalid credentials"))
    | .jsonOk d => (pushCall s (loginCall s), .ok d)
    | .jsonErr d => (pushCall s (loginCall s), .err (raise_client_error "login" d false))
  else
    (s, .err (PyError.invalidCredentials "Invalid credentials"))

/-- Client.async_authenticate (client.py lines 213-231): when username and
password are both truthy, clear the token (mutual exclusion with BasicAuth),
perform the login exchange, and store the token field of the payload.  A
missing token field raises KeyError; a list payload raises TypeError when
indexed with a string.  Returns the new state and the exception propagated,
if any. -/
def async_authenticate (o : Resp) (retries : Int) (s : ClientState) :
    ClientState × Option PyError :=
  if pyTruthy s.username && pyTruthy s.password then
    match loginRequest o retries { s with token := none } with
    | (s1, .ok (.dict entries)) =>
      match dictGet entries "token" with
      | some t => ({ s1 with token := some t }, none)
      | none => (s1, some (PyError.keyError "token"))
    | (s1, .ok (.arr _)) => (s1, some PyError.typeError)
    | (s1, .err e) => (s1, some e)
  else
    (s, none)

/-- The while loop of Client._async_request (client.py lines 167-204), with
the loop counter replaced by its remaining headroom: fuel equals
(retries - retry).toNat, so the guard retry < retries is exactly fuel being
positive, and the continue path decrements fuel.  The header argument models
the persistent kwargs headers dict: the Authorization entry is overwritten
only when the token is truthy.  Fuel zero is the while-else branch (line 204):
InvalidCredentialsError.  A ContentTypeError on the login endpoint raises
InvalidCredentialsError at once; on any other endpoint it increments the
counter, re-authenticates, sleeps and retries; a parsed body with a failing
status raises via raise_client_error; otherwise the parsed body is returned
unchanged. -/
def requestLoop (o : Resp) (retries : Int) (method endpoint : String)
    (basic : Bool) : Nat → Option String → ClientState → ClientState × Outcome
  | 0, _, s => (s, .err (PyError.invalidCredentials "Invalid credentials"))
  | fuel + 1, header, s =>
    match o s.calls.length with
    | .nonJson =>
      if endpoint == "login" then
        (pushCall s ⟨method, endpoint, nextHeader s header, basic⟩,
         .err (PyError.invalidCredentials "Invalid credentials"))
      else
        match async_authenticate o retries
            (pushCall s ⟨method, endpoint, nextHeader s header, basic⟩) with
        | (s2, some e) => (s2, .err e)
        | (s2, none) =>
          requestLoop o retries method endpoint basic fuel (nextHeader s header) s2
    | .jsonOk d =>
      (pushCall s ⟨method, endpoint, nextHeader s header, basic⟩, .ok d)
    | .jsonErr d =>
      (pushCall s ⟨method, endpoint, nextHeader s header, basic⟩,
       .err (raise_client_error endpoint d false))

/-- Client._async_request (client.py lines 139-211): fresh kwargs (no
Authorization header yet), loop counter starting at zero, hence initial fuel
retries.toNat. -/
def async_request (o : Resp) (retries : Int) (method endpoint : String)
    (basic : Bool) (s : ClientState) : ClientState × Outcome :=
  requestLoop o retries method endpoint basic retries.toNat none s

/-- The result of _async_request together with its session bookkeeping. -/
structure RequestResult where
  state : ClientState
  outcome : Outcome
  usedRunningSession : Bool
  closedSession : Bool
deriving DecidableEq, Repr

/-- Client._async_request with the session handling of lines 159-162 and
206-207: use_running_session is truthy when a session was supplied and is not
closed, otherwise an ad hoc session is created; session.close() sits after the
loop on the normal path only, so it runs exactly when the call returns a
payload and the session was created ad hoc — an exception propagates past it.
closedSession records whether the engine executed session.close(). -/
def async_request_session (o : Resp) (retries : Int) (method endpoint : String)
    (basic : Bool) (sessionSupplied suppliedSessionClosed : Bool)
    (s : ClientState) : RequestResult :=
  let useRunning := sessionSupplied && !suppliedSessionClosed
  match async_request o retries method endpoint basic s with
  | (s1, .ok d) => ⟨s1, .ok d, useRunning, !useRunning⟩
  | (s1, .err e) => ⟨s1, .err e, useRunning, false⟩

/-- Python bitwise complement of a bool (emissions.py line 64): bools are
ints, so the complement of False is -1 and of True is -2. -/
def pyInvertBool (b : Bool) : Int :=
  if b then -2 else -1

/-- The XNOR guard of the wrapper inside ensure_start_and_end_datetime
(emissions.py line 64): true exactly when the wrapped call may proceed.
Datetime objects are always truthy and the defaults are None, so bool() of
each argument is isSome. -/
def ensure_check_passes (sd ed : Option String) : Bool :=
  pyInvertBool (Bool.xor sd.isSome ed.isSome) == -1

/-- The body of the wrapper defined inside ensure_start_and_end_datetime
(emissions.py lines 62-70): on a passing check return the inner call, else
raise ValueError.  Note that in the source this wrapper is never attached to
any method: the factory body never returns the decorator, the decorator never
returns the wrapper, and the two application sites (lines 88 and 105) invoke
the factory as a bare statement instead of a decorator, so the methods below
run unwrapped. -/
def ensure_wrapper (sd ed : Option String) (inner : ClientState × Outcome)
    (s : ClientState) : ClientState × Outcome :=
  if ensure_check_passes sd ed then inner
  else (s, .err (PyError.valueError "start_datetime and end_datetime must go together"))

/-- EmissionsAPI.async_get_forecasted_emissions as wired in the source
(emissions.py lines 89-103, unwrapped): build params, and under
(quote) if start_datetime (unquote) call isoformat on both datetimes —
end_datetime.isoformat() raises AttributeError when end_datetime is None —
then delegate to the engine on endpoint forecast.  Datetimes are carried as
their isoformat strings. -/
def async_get_forecasted_emissions (o : Resp) (retries : Int) (ba : String)
    (start_datetime end_datetime : Option String) (s : ClientState) :
    ClientState × Outcome :=
  if start_datetime.isSome then
    match end_datetime with
    | some _ => async_request o retries "get" "forecast" false s
    | none => (s, .err PyError.attributeError)
  else
    async_request o retries "get" "forecast" false s

/-- EmissionsAPI.async_get_historical_emissions as wired in the source
(emissions.py lines 106-122, unwrapped), delegating to endpoint data; the
datetime handling is identical to the forecasted variant. -/
def async_get_historical_emissions (o : Resp) (retries : Int)
    (latitude longitude : String) (start_datetime end_datetime : Option String)
    (s : ClientState) : ClientState × Outcome :=
  if start_datetime.isSome then
    match end_datetime with
    | some _ => async_request o retries "get" "data" false s
    | none => (s, .err PyError.attributeError)
  else
    async_request o retries "get" "data" false s

/-- An oracle that answers every call with a boundary signal (non-JSON body). -/
def oAllBoundary : Resp := fun _ => .nonJson

/-- An oracle for the retry scenario: every even-numbered call (the original
descriptor) yields a boundary signal, every odd-numbered call (the login
exchange) succeeds with a fresh token t. -/
def oBoundaryLoop : Resp := fun i =>
  if i % 2 == 0 then .nonJson else .jsonOk (.dict [("token", "t")])

/-- An oracle that answers every call with a successful empty-object body. -/
def oAllOk : Resp := fun _ => .jsonOk (.dict [])

/-- A freshly authenticated client: token abcd1234, stored credentials, no
calls issued yet. -/
def sInit : ClientState :=
  ⟨some "abcd1234", some "user", some "password", []⟩

theorem raiseMatchedError_shape (e m : String) :
    raiseMatchedError e m = PyError.invalidScope (errorRequestMessage e m)
      ∨ raiseMatchedError e m = PyError.usernameTaken (errorRequestMessage e m)
      ∨ raiseMatchedError e m = PyError.requestError (errorRequestMessage e m) := by
  unfold raiseMatchedError ERROR_MESSAGE_TO_EXCEPTION_MAP
  cases h1 : strIncludes m "Invalid scope" <;>
    cases h2 : strIncludes m "That username is taken" <;>
      simp [List.filter, h1, h2]

theorem raiseMatchedError_text (e m : String) :
    (raiseMatchedError e m).text = errorRequestMessage e m := by
  rcases raiseMatchedError_shape e m with h | h | h <;> rw [h] <;> rfl

theorem raiseMatchedError_isWattTimeError (e m : String) :
    (raiseMatchedError e m).isWattTimeError = true := by
  rcases raiseMatchedError_shape e m with h | h | h <;> rw [h] <;> rfl

theorem raiseMatchedError_ne_invalidCredentials (e m t : String) :
    raiseMatchedError e m ≠ PyError.invalidCredentials t := by
  rcases raiseMatchedError_shape e m with h | h | h <;> rw [h] <;> intro hc <;> cases hc

theorem raiseMatchedError_ne_valueError (e m t : String) :
    raiseMatchedError e m ≠ PyError.valueError t := by
  rcases raiseMatchedError_shape e m with h | h | h <;> rw [h] <;> intro hc <;> cases hc

theorem raise_client_error_ne_invalidCredentials (e : String) (d : JsonVal)
    (t : String) : raise_client_error e d false ≠ PyError.invalidCredentials t := by
  cases d with
  | dict entries =>
    cases hm : dictGet entries "message" with
    | some m =>
      have hrw : raise_client_error e (.dict entries) false = raiseMatchedError e m := by
        simp [raise_client_error, raise_error, hm]
      rw [hrw]; exact raiseMatchedError_ne_invalidCredentials e m t
    | none =>
      cases he : dictGet entries "error" with
      | some m =>
        have hrw : raise_client_error e (.dict entries) false = raiseMatchedError e m := by
          simp [raise_client_error, raise_error, hm, he]
        rw [hrw]; exact raiseMatchedError_ne_invalidCredentials e m t
      | none =>
        have hrw : raise_client_error e (.dict entries) false = PyError.unboundLocalError := by
          simp [raise_client_error, raise_error, hm, he]
        rw [hrw]; intro hc; cases hc
  | arr items => simp [raise_client_error]

theorem loginRequest_eq_async_request (o : Resp) (r : Int) (s : ClientState) :
    loginRequest o r s = async_request o r "get" "login" true s := by
  unfold loginRequest async_request
  rcases hnat : r.toNat with _ | k
  · have hr : ¬ 0 < r := by omega
    simp [hr, requestLoop]
  · have hr : 0 < r := by omega
    simp only [requestLoop, hr, if_true]
    cases o s.calls.length <;> simp [loginCall]

theorem loginRequest_invalidCredentials_text (o : Resp) (r : Int)
    (s s1 : ClientState) (t : String)
    (h : loginRequest o r s = (s1, .err (PyError.invalidCredentials t))) :
    t = "Invalid credentials" := by
  simp only [loginRequest] at h
  split at h
  · split at h
    · rw [Prod.mk.injEq] at h
      exact (Outcome.err.inj h.2 ▸ rfl : PyError.invalidCredentials _ = _) |>
        fun hh => (PyError.invalidCredentials.inj hh).symm
    · rw [Prod.mk.injEq] at h
      exact absurd h.2 (by intro hc; cases hc)
    · rw [Prod.mk.injEq] at h
      exact absurd (Outcome.err.inj h.2)
        (raise_client_error_ne_invalidCredentials _ _ t)
  · rw [Prod.mk.injEq] at h
    exact (PyError.invalidCredentials.inj (Outcome.err.inj h.2)).symm

theorem async_authenticate_invalidCredentials_text (o : Resp) (r : Int)
    (s s2 : ClientState) (t : String)
    (h : async_authenticate o r s = (s2, some (PyError.invalidCredentials t))) :
    t = "Invalid credentials" := by
  unfold async_authenticate at h
  split at h
  · rcases hl : loginRequest o r { s with token := none } with ⟨sl, out⟩
    rw [hl] at h
    cases out with
    | ok d =>
      cases d with
      | dict entries =>
        dsimp only at h
        rcases ht : dictGet entries "token" with _ | tk <;> rw [ht] at h <;>
          rw [Prod.mk.injEq] at h <;> simp at h
      | arr items => dsimp only at h; rw [Prod.mk.injEq] at h; simp at h
    | err pe =>
      rw [Prod.mk.injEq] at h
      have hpe : pe = PyError.invalidCredentials t := Option.some.inj h.2
      exact loginRequest_invalidCredentials_text o r _ _ t (hpe ▸ hl)
  · rw [Prod.mk.injEq] at h; simp at h

theorem requestLoop_invalidCredentials_text (o : Resp) (r : Int) (m e : String)
    (b : Bool) :
    ∀ (fuel : Nat) (hdr : Option String) (s s1 : ClientState) (t : String),
      requestLoop o r m e b fuel hdr s = (s1, .err (PyError.invalidCredentials t)) →
      t = "Invalid credentials" := by
  intro fuel
  induction fuel with
  | zero =>
    intro hdr s s1 t h
    rw [requestLoop, Prod.mk.injEq] at h
    exact (PyError.invalidCredentials.inj (Outcome.err.inj h.2)).symm
  | succ fuel ih =>
    intro hdr s s1 t h
    rw [requestLoop] at h
    rcases hresp : o s.calls.length with _ | d | d <;> rw [hresp] at h <;>
      dsimp only at h
    · split at h
      · rw [Prod.mk.injEq] at h
        exact (PyError.invalidCredentials.inj (Outcome.err.inj h.2)).symm
      · rcases ha : async_authenticate o r (pushCall s ⟨m, e, nextHeader s hdr, b⟩)
          with ⟨s2, opt⟩
        rw [ha] at h
        cases opt with
        | none => dsimp only at h; exact ih _ _ _ t h
        | some pe =>
          dsimp only at h
          rw [Prod.mk.injEq] at h
          have hpe : pe = PyError.invalidCredentials t := Outcome.err.inj h.2
          exact async_authenticate_invalidCredentials_text o r _ _ t (hpe ▸ ha)
    · rw [Prod.mk.injEq] at h; simp at h
    · rw [Prod.mk.injEq] at h
      exact absurd (Outcome.err.inj h.2)
        (raise_client_error_ne_invalidCredentials _ _ t)

theorem loginRequest_calls_decomp (o : Resp) (r : Int) (s : ClientState) :
    (loginRequest o r s).1.calls = s.calls
      ∨ (loginRequest o r s).1.calls = s.calls ++ [loginCall s] := by
  unfold loginRequest
  split
  · cases o s.calls.length <;> simp [pushCall]
  · simp

theorem loginCall_token_cleared (s : ClientState) :
    loginCall { s with token := none } = ⟨"get", "login", none, true⟩ := by
  simp [loginCall, nextHeader, pyTruthy]

theorem async_authenticate_calls_decomp (o : Resp) (r : Int) (s : ClientState) :
    (async_authenticate o r s).1.calls = s.calls
      ∨ (async_authenticate o r s).1.calls
          = s.calls ++ [⟨"get", "login", none, true⟩] := by
  unfold async_authenticate
  split
  · rcases hl : loginRequest o r { s with token := none } with ⟨s1, out⟩
    have hc := loginRequest_calls_decomp o r { s with token := none }
    rw [hl, loginCall_token_cleared] at hc
    dsimp only at hc
    cases out with
    | ok d =>
      cases d with
      | dict entries =>
        dsimp only
        cases ht : dictGet entries "token" with
        | none => exact hc
        | some tk => exact hc
      | arr items => exact hc
    | err pe => exact hc
  · left; rfl

theorem requestLoop_calls_mutex (o : Resp) (r : Int) (m e : String) :
    ∀ (fuel : Nat) (hdr : Option String) (s : ClientState), ∃ new,
      (requestLoop o r m e false fuel hdr s).1.calls = s.calls ++ new
        ∧ ∀ c ∈ new, c.basicAuth = true → c.bearer = none := by
  intro fuel
  induction fuel with
  | zero =>
    intro hdr s
    exact ⟨[], by simp [requestLoop], by simp⟩
  | succ fuel ih =>
    intro hdr s
    rw [requestLoop]
    rcases hresp : o s.calls.length with _ | d | d <;> dsimp only
    · split
      · exact ⟨[⟨m, e, nextHeader s hdr, false⟩], by simp [pushCall], by simp⟩
      · rcases ha : async_authenticate o r
            (pushCall s ⟨m, e, nextHeader s hdr, false⟩) with ⟨s2, opt⟩
        have hadec := async_authenticate_calls_decomp o r
          (pushCall s ⟨m, e, nextHeader s hdr, false⟩)
        rw [ha] at hadec
        dsimp only at hadec
        cases opt with
        | some pe =>
          dsimp only
          rcases hadec with hh | hh
          · refine ⟨[⟨m, e, nextHeader s hdr, false⟩], ?_, by simp⟩
            rw [hh]; simp [pushCall]
          · refine ⟨[⟨m, e, nextHeader s hdr, false⟩, ⟨"get", "login", none, true⟩],
              ?_, by simp⟩
            rw [hh]; simp [pushCall]
        | none =>
          dsimp only
          obtain ⟨new2, hnew2, hP2⟩ := ih (nextHeader s hdr) s2
          rcases hadec with hh | hh
          · refine ⟨⟨m, e, nextHeader s hdr, false⟩ :: new2, ?_, ?_⟩
            · rw [hnew2, hh]; simp [pushCall]
            · intro c hc
              rcases List.mem_cons.mp hc with hc1 | hc2
              · subst hc1; simp
              · exact hP2 c hc2
          · refine ⟨⟨m, e, nextHeader s hdr, false⟩ ::
              ⟨"get", "login", none, true⟩ :: new2, ?_, ?_⟩
            · rw [hnew2, hh]; simp [pushCall]
            · intro c hc
              rcases List.mem_cons.mp hc with hc1 | hc2
              · subst hc1; simp
              · rcases List.mem_cons.mp hc2 with hc3 | hc4
                · subst hc3; intro _; rfl
                · exact hP2 c hc4
    · exact ⟨[⟨m, e, nextHeader s hdr, false⟩], by simp [pushCall], by simp⟩
    · exact ⟨[⟨m, e, nextHeader s hdr, false⟩], by simp [pushCall], by simp⟩

/-- The endpoint names of the calls issued in the exhaustion scenario: the
original descriptor alternating with a login exchange, n rounds. -/
def altEndpoints (e : String) : Nat → List String
  | 0 => []
  | n + 1 => e :: "login" :: altEndpoints e n

/-- The full calls issued in the exhaustion scenario: each round resubmits the
descriptor (bearer header h on the first round, then the refreshed token t)
followed by the Authenticator's BasicAuth login call. -/
def boundaryCalls (m e : String) (h : Option String) : Nat → List IssuedCall
  | 0 => []
  | n + 1 => ⟨m, e, h, false⟩ :: ⟨"get", "login", none, true⟩ ::
      boundaryCalls m e (some "t") n

theorem oBoundaryLoop_even (n : Nat) (h : n % 2 = 0) :
    oBoundaryLoop n = .nonJson := by
  simp [oBoundaryLoop, h]

theorem oBoundaryLoop_odd (n : Nat) (h : n % 2 = 1) :
    oBoundaryLoop n = .jsonOk (.dict [("token", "t")]) := by
  simp [oBoundaryLoop, h]

theorem boundaryLoop_run (r : Int) (hr : 1 ≤ r) (m e : String)
    (he : (e == "login") = false) (u pw : String)
    (hu : u.isEmpty = false) (hp : pw.isEmpty = false) :
    ∀ (fuel : Nat) (hdr tok : Option String) (cs : List IssuedCall),
      cs.length % 2 = 0 →
      requestLoop oBoundaryLoop r m e false fuel hdr ⟨tok, some u, some pw, cs⟩
        = (⟨if fuel == 0 then tok else some "t", some u, some pw,
            cs ++ boundaryCalls m e
              (nextHeader ⟨tok, some u, some pw, cs⟩ hdr) fuel⟩,
           .err (PyError.invalidCredentials "Invalid credentials")) := by
  intro fuel
  induction fuel with
  | zero =>
    intro hdr tok cs hlen
    simp [requestLoop, boundaryCalls]
  | succ fuel ih =>
    intro hdr tok cs hlen
    rw [requestLoop]
    dsimp only
    rw [oBoundaryLoop_even cs.length hlen]
    dsimp only
    rw [if_neg (by simp [he])]
    have hodd : (cs ++
        [(⟨m, e, nextHeader ⟨tok, some u, some pw, cs⟩ hdr, false⟩ : IssuedCall)]).length
          % 2 = 1 := by
      simp [List.length_append]; omega
    have hauth : async_authenticate oBoundaryLoop r
        (pushCall ⟨tok, some u, some pw, cs⟩
          ⟨m, e, nextHeader ⟨tok, some u, some pw, cs⟩ hdr, false⟩)
        = (⟨some "t", some u, some pw,
            (cs ++ [⟨m, e, nextHeader ⟨tok, some u, some pw, cs⟩ hdr, false⟩])
              ++ [⟨"get", "login", none, true⟩]⟩, none) := by
      unfold async_authenticate
      rw [if_pos]
      · rw [loginRequest]
        rw [if_pos (by omega : (0 : Int) < r)]
        dsimp only [pushCall]
        rw [oBoundaryLoop_odd _ hodd]
        dsimp only
        simp [loginCall, nextHeader, pyTruthy, dictGet, List.find?]
      · simp [pushCall, pyTruthy, hu, hp]
    rw [hauth]
    dsimp only
    have hlen2 : ((cs ++
        [(⟨m, e, nextHeader ⟨tok, some u, some pw, cs⟩ hdr, false⟩ : IssuedCall)])
        ++ [(⟨"get", "login", none, true⟩ : IssuedCall)]).length % 2 = 0 := by
      simp [List.length_append]; omega
    rw [ih (nextHeader ⟨tok, some u, some pw, cs⟩ hdr) (some "t") _ hlen2]
    rw [Prod.mk.injEq]
    constructor
    · rw [ClientState.mk.injEq]
      refine ⟨by simp [ite_self], rfl, rfl, ?_⟩
      rw [boundaryCalls]
      have hte : (("t" : String).isEmpty) = false := rfl
      simp [nextHeader, pyTruthy, hte]
    · rfl


theorem boundaryCalls_map_endpoint (m e : String) (h : Option String) (n : Nat) :
    (boundaryCalls m e h n).map IssuedCall.endpoint = altEndpoints e n := by
  induction n generalizing h with
  | zero => rfl
  | succ n ih => rw [boundaryCalls, altEndpoints]; simp [ih]

theorem boundaryCalls_counts (m e : String) (h : Option String) (n : Nat) :
    ((boundaryCalls m e h n).filter (fun c => c.basicAuth)).length = n
      ∧ ((boundaryCalls m e h n).filter (fun c => !c.basicAuth)).length = n := by
  induction n generalizing h with
  | zero => exact ⟨rfl, rfl⟩
  | succ n ih =>
    rw [boundaryCalls]
    refine ⟨?_, ?_⟩ <;> simp [List.filter, (ih (some "t")).1, (ih (some "t")).2]

end Aiowatttime

namespace Aiowatttime

/-- C10: for a client constructed with request_retries at most zero, any call
through the Request Engine raises the invalid-credentials error immediately:
the loop body never runs, the state (trace included) is unchanged, so no HTTP
call is issued, regardless of endpoint, method, auth mode or held
credentials. -/
theorem C10_nonpositive_retries (o : Resp) (r : Int) (m e : String) (b : Bool)
    (s : ClientState) (hr : r ≤ 0) :
    async_request o r m e b s
      = (s, .err (PyError.invalidCredentials "Invalid credentials")) := by
  unfold async_request
  have h0 : r.toNat = 0 := by omega
  rw [h0, requestLoop]

/-- C10 witness: the theorem applied at request_retries zero on the index
endpoint with an all-success transport. -/
theorem C10_nonpositive_retries_witness :
    async_request oAllOk 0 "get" "index" false sInit
      = (sInit, .err (PyError.invalidCredentials "Invalid credentials")) :=
  C10_nonpositive_retries oAllOk 0 "get" "index" false sInit (by omega)

/-- C2: a boundary signal (non-JSON body) on a request that targets the login
endpoint fails at once with the invalid-credentials error: exactly one HTTP
call is issued (the trace grows by that single login call), the token is left
unchanged and no re-authentication happens. -/
theorem C2_login_boundary_immediate (o : Resp) (r : Int) (m : String) (b : Bool)
    (s : ClientState) (hr : 1 ≤ r) (hresp : o s.calls.length = .nonJson) :
    async_request o r m "login" b s
      = (pushCall s ⟨m, "login", nextHeader s none, b⟩,
         .err (PyError.invalidCredentials "Invalid credentials")) := by
  unfold async_request
  obtain ⟨k, hk⟩ : ∃ k, r.toNat = k + 1 := ⟨r.toNat - 1, by omega⟩
  rw [hk, requestLoop]
  rw [hresp]
  rfl

/-- C2 witness: the theorem applied to a login request with the default three
retries against a transport that always answers with a non-JSON body. -/
theorem C2_login_boundary_immediate_witness :
    async_request oAllBoundary 3 "get" "login" true sInit
      = (pushCall sInit ⟨"get", "login", nextHeader sInit none, true⟩,
         .err (PyError.invalidCredentials "Invalid credentials")) :=
  C2_login_boundary_immediate oAllBoundary 3 "get" true sInit (by omega) rfl

/-- C8: whenever the response to the issued call parses as JSON and the HTTP
status indicates success, the engine returns that parsed body unchanged, for
every endpoint, method, auth mode and client state (the state quantifies over
arbitrary prior traces, so this covers retry resubmissions as well). -/
theorem C8_success_passthrough (o : Resp) (r : Int) (m e : String) (b : Bool)
    (s : ClientState) (d : JsonVal) (hr : 1 ≤ r)
    (hresp : o s.calls.length = .jsonOk d) :
    async_request o r m e b s
      = (pushCall s ⟨m, e, nextHeader s none, b⟩, .ok d) := by
  unfold async_request
  obtain ⟨k, hk⟩ : ∃ k, r.toNat = k + 1 := ⟨r.toNat - 1, by omega⟩
  rw [hk, requestLoop]
  rw [hresp]

/-- C8 witness: the theorem applied to the index endpoint returning a concrete
object body. -/
theorem C8_success_passthrough_witness :
    async_request (fun _ => .jsonOk (.dict [("freq", "300")])) 3 "get" "index"
        false sInit
      = (pushCall sInit ⟨"get", "index", nextHeader sInit none, false⟩,
         .ok (.dict [("freq", "300")])) :=
  C8_success_passthrough (fun _ => .jsonOk (.dict [("freq", "300")])) 3 "get"
    "index" false sInit (.dict [("freq", "300")]) (by omega) rfl

end Aiowatttime

namespace Aiowatttime

/-- C1 counterexample: with request_retries equal to 1 (so N = 1), a single
boundary signal on the index endpoint exhausts the retries and the call fails
with the invalid-credentials error — but the trace shows one more HTTP call,
the re-authentication login exchange, issued after that Nth boundary signal
and before the failure, contradicting the claim that after N consecutive
boundary signals no further HTTP calls are issued. -/
theorem C1_counterexample :
    async_request oBoundaryLoop 1 "get" "index" false sInit
      = (⟨some "t", some "user", some "password",
          [⟨"get", "index", some "abcd1234", false⟩,
           ⟨"get", "login", none, true⟩]⟩,
         .err (PyError.invalidCredentials "Invalid credentials")) := by
  rfl

/-- C1 (amended): for every non-login endpoint, when every submission of the
descriptor meets a boundary signal and every login exchange succeeds, each of
the N = request_retries boundary signals (the last one included) triggers
exactly one re-authentication; the descriptor is submitted exactly N times and
the login endpoint is called exactly N times, strictly alternating, the final
re-authentication happening after the Nth boundary signal; then the call fails
with the invalid-credentials error and no further submission of the original
descriptor occurs. -/
theorem C1_retry_exhaustion (N : Nat) (hN : 1 ≤ N) (m e : String)
    (he : (e == "login") = false) :
    async_request oBoundaryLoop (N : Int) m e false sInit
        = (⟨some "t", some "user", some "password",
            boundaryCalls m e (some "abcd1234") N⟩,
           .err (PyError.invalidCredentials "Invalid credentials"))
      ∧ (boundaryCalls m e (some "abcd1234") N).map IssuedCall.endpoint
          = altEndpoints e N
      ∧ ((boundaryCalls m e (some "abcd1234") N).filter
          (fun c => c.basicAuth)).length = N
      ∧ ((boundaryCalls m e (some "abcd1234") N).filter
          (fun c => !c.basicAuth)).length = N := by
  refine ⟨?_, boundaryCalls_map_endpoint m e _ N,
    (boundaryCalls_counts m e _ N).1, (boundaryCalls_counts m e _ N).2⟩
  unfold async_request
  have htn : ((N : Int)).toNat = N := by omega
  rw [htn]
  show requestLoop oBoundaryLoop (N : Int) m e false N none
      ⟨some "abcd1234", some "user", some "password", []⟩ = _
  rw [boundaryLoop_run (N : Int) (by omega) m e he "user" "password" rfl rfl
    N none (some "abcd1234") [] rfl]
  have h0 : (N == 0) = false := by
    cases N with
    | zero => exact absurd hN (by omega)
    | succ k => rfl
  rw [Prod.mk.injEq, ClientState.mk.injEq]
  refine ⟨⟨?_, rfl, rfl, ?_⟩, rfl⟩
  · rw [h0]; rfl
  · rfl

/-- C1 witness: the amended theorem applied at N = 2 on the index endpoint. -/
theorem C1_retry_exhaustion_witness :
    async_request oBoundaryLoop ((2 : Nat) : Int) "get" "index" false sInit
        = (⟨some "t", some "user", some "password",
            boundaryCalls "get" "index" (some "abcd1234") 2⟩,
           .err (PyError.invalidCredentials "Invalid credentials"))
      ∧ (boundaryCalls "get" "index" (some "abcd1234") 2).map IssuedCall.endpoint
          = altEndpoints "index" 2
      ∧ ((boundaryCalls "get" "index" (some "abcd1234") 2).filter
          (fun c => c.basicAuth)).length = 2
      ∧ ((boundaryCalls "get" "index" (some "abcd1234") 2).filter
          (fun c => !c.basicAuth)).length = 2 :=
  C1_retry_exhaustion 2 (by omega) "get" "index" rfl

end Aiowatttime

namespace Aiowatttime

/-- C3: the Authenticator clears the stored token before the login call, so
every call it issues carries BasicAuth credentials and no bearer header; and
in any Request Engine run on a non-BasicAuth descriptor (every library entry
point other than authentication itself) no single issued call carries both a
bearer token and BasicAuth credentials. -/
theorem C3_token_cleared_mutual_exclusion :
    (∀ (o : Resp) (r : Int) (s : ClientState),
        ∀ c ∈ (async_authenticate o r s).1.calls.drop s.calls.length,
          c.basicAuth = true ∧ c.bearer = none)
      ∧ (∀ (o : Resp) (r : Int) (m e : String) (s : ClientState),
        ∀ c ∈ (async_request o r m e false s).1.calls.drop s.calls.length,
          c.basicAuth = true → c.bearer = none) := by
  constructor
  · intro o r s c hc
    rcases async_authenticate_calls_decomp o r s with hh | hh
    · rw [hh, List.drop_length] at hc
      exact absurd hc (List.not_mem_nil c)
    · rw [hh, List.drop_left] at hc
      have := List.mem_singleton.mp hc
      subst this
      exact ⟨rfl, rfl⟩
  · intro o r m e s c hc
    obtain ⟨new, hnew, hP⟩ := requestLoop_calls_mutex o r m e r.toNat none s
    unfold async_request at hc
    rw [hnew, List.drop_left] at hc
    exact hP c hc
/-- C3 witness: the theorem applied to a concrete authentication attempt (the
login exchange returns an object without a token field, so the attempt ends in
KeyError after issuing exactly one BasicAuth call with no bearer header). -/
theorem C3_token_cleared_mutual_exclusion_witness :
    ((⟨"get", "login", none, true⟩ : IssuedCall).basicAuth = true
      ∧ (⟨"get", "login", none, true⟩ : IssuedCall).bearer = none) :=
  C3_token_cleared_mutual_exclusion.1 oAllOk 3 sInit ⟨"get", "login", none, true⟩
    (by decide)

end Aiowatttime

namespace Aiowatttime

/-- C4 (showing the code bug): for a parsed dict body with neither a message
nor an error field the classifier does not produce a typed error — the local
variable msg is read before assignment and UnboundLocalError, a raw untyped
exception, escapes, both from raise_error directly and through the Request
Engine on an HTTP failure; a parsed list body fails the same way. -/
theorem C4_unrecognized_shape_untyped :
    raise_error "register" [("status", "error")] false = PyError.unboundLocalError
      ∧ (async_request (fun _ => .jsonErr (.dict [("status", "error")])) 3 "post"
          "register" false sInit).2 = .err PyError.unboundLocalError
      ∧ raise_client_error "register" (.arr [[("ok", "x")]]) false
          = PyError.unboundLocalError
      ∧ PyError.unboundLocalError.isWattTimeError = false :=
  ⟨rfl, rfl, rfl, rfl⟩

/-- C5: a register call whose HTTP-failure body is the object with message
field (quote) That username is taken (unquote) fails with the username-taken
error; one with error field (quote) Some other problem (unquote) fails with
the generic request error carrying exactly that text; and any message that
matches no phrase of ERROR_MESSAGE_TO_EXCEPTION_MAP falls back to the generic
request error carrying the original message. -/
theorem C5_register_error_classification :
    (∀ (o : Resp) (r : Int) (s : ClientState), 1 ≤ r →
        o s.calls.length = .jsonErr (.dict [("message", "That username is taken")]) →
        (async_request o r "post" "register" false s).2
          = .err (PyError.usernameTaken
              "Error while requesting /register: That username is taken"))
      ∧ (∀ (o : Resp) (r : Int) (s : ClientState), 1 ≤ r →
        o s.calls.length = .jsonErr (.dict [("error", "Some other problem")]) →
        (async_request o r "post" "register" false s).2
          = .err (PyError.requestError
              "Error while requesting /register: Some other problem"))
      ∧ (∀ msg : String, strIncludes msg "Invalid scope" = false →
        strIncludes msg "That username is taken" = false →
        raise_error "register" [("message", msg)] false
          = PyError.requestError (errorRequestMessage "register" msg)) := by
  refine ⟨?_, ?_, ?_⟩
  · intro o r s hr hresp
    unfold async_request
    obtain ⟨k, hk⟩ : ∃ k, r.toNat = k + 1 := ⟨r.toNat - 1, by omega⟩
    rw [hk, requestLoop]
    rw [hresp]
    rfl
  · intro o r s hr hresp
    unfold async_request
    obtain ⟨k, hk⟩ : ∃ k, r.toNat = k + 1 := ⟨r.toNat - 1, by omega⟩
    rw [hk, requestLoop]
    rw [hresp]
    rfl
  · intro msg h1 h2
    show raiseMatchedError "register" msg = _
    unfold raiseMatchedError ERROR_MESSAGE_TO_EXCEPTION_MAP
    simp [List.filter, h1, h2]

/-- C5 witness: the theorem applied to a register call answered with the
username-taken body. -/
theorem C5_register_error_classification_witness :
    (async_request (fun _ => .jsonErr (.dict [("message", "That username is taken")]))
        3 "post" "register" false sInit).2
      = .err (PyError.usernameTaken
          "Error while requesting /register: That username is taken") :=
  C5_register_error_classification.1
    (fun _ => .jsonErr (.dict [("message", "That username is taken")]))
    3 sInit (by omega) rfl

end Aiowatttime

namespace Aiowatttime

/-- C6 (showing the code bug): the validation decorator is never attached (the
factory body returns nothing and the application sites invoke it as a bare
statement), so the emissions methods run unwrapped: with only a start time the
forecasted-emissions call raises the raw AttributeError (from isoformat on
None) instead of the parameter-validation ValueError, before any network call;
with only an end time the historical-emissions call issues the network call
with no validation error at all.  The XNOR check that the dead wrapper defines
would have rejected both inputs, and, had the wrapper been applied, it would
have raised the documented ValueError without a network call. -/
theorem C6_validation_never_applied :
    (async_get_forecasted_emissions oAllOk 3 "PSCO"
        (some "2021-01-01T00:00:00") none sInit).2 = .err PyError.attributeError
      ∧ (async_get_forecasted_emissions oAllOk 3 "PSCO"
          (some "2021-01-01T00:00:00") none sInit).1.calls = []
      ∧ (async_get_historical_emissions oAllOk 3 "40.7" "-74.3"
          none (some "2021-01-31T00:00:00") sInit).2 = .ok (.dict [])
      ∧ (async_get_historical_emissions oAllOk 3 "40.7" "-74.3"
          none (some "2021-01-31T00:00:00") sInit).1.calls.length = 1
      ∧ ensure_check_passes (some "2021-01-01T00:00:00") none = false
      ∧ ensure_check_passes none (some "2021-01-31T00:00:00") = false
      ∧ ensure_wrapper (some "2021-01-01T00:00:00") none
          (async_request oAllOk 3 "get" "forecast" false sInit) sInit
          = (sInit, .err (PyError.valueError
              "start_datetime and end_datetime must go together")) :=
  ⟨rfl, rfl, rfl, rfl, rfl, rfl, rfl⟩

/-- C9 counterexample: a call that creates its transport ad hoc (no session
supplied) and terminates in the typed invalid-credentials error never executes
session.close(), contradicting the claim that an ad hoc transport is always
closed before the call completes. -/
theorem C9_counterexample :
    (async_request_session oAllBoundary 3 "get" "login" true false false
        sInit).outcome = .err (PyError.invalidCredentials "Invalid credentials")
      ∧ (async_request_session oAllBoundary 3 "get" "login" true false false
          sInit).usedRunningSession = false
      ∧ (async_request_session oAllBoundary 3 "get" "login" true false false
          sInit).closedSession = false :=
  ⟨rfl, rfl, rfl⟩

/-- C9 (amended): for every call through the Request Engine, the engine
executes session.close() exactly when the transport was created ad hoc (no
open caller-supplied session) and the call returns a payload; hence a
caller-supplied open transport is never closed, and an ad hoc transport is
closed before the call completes on success but leaks when the call
terminates in a typed error. -/
theorem C9_session_close_discipline (o : Resp) (r : Int) (m e : String)
    (b sessionSupplied suppliedSessionClosed : Bool) (s : ClientState) :
    (async_request_session o r m e b sessionSupplied suppliedSessionClosed
        s).closedSession
      = (!(async_request_session o r m e b sessionSupplied suppliedSessionClosed
            s).usedRunningSession
          && (async_request_session o r m e b sessionSupplied
              suppliedSessionClosed s).outcome.isOk) := by
  unfold async_request_session
  rcases h : async_request o r m e b s with ⟨s1, out⟩
  cases out <;> simp [Outcome.isOk]

end Aiowatttime

namespace Aiowatttime

theorem isPrefixOf_self_append (a post : List Char) :
    List.isPrefixOf a (a ++ post) = true := by
  induction a with
  | nil => simp
  | cons c rest ih =>
    have hsh : (c :: rest) ++ post = c :: (rest ++ post) := rfl
    rw [hsh, List.isPrefixOf_cons₂, ih, beq_self_eq_true]
    rfl

theorem infixOfList_of_isPrefixOf (a hay : List Char)
    (h : List.isPrefixOf a hay = true) : infixOfList a hay = true := by
  cases hay with
  | nil => rw [infixOfList]; exact h
  | cons c rest => rw [infixOfList]; simp [h]

theorem infixOfList_append (a pre post : List Char) :
    infixOfList a (pre ++ a ++ post) = true := by
  induction pre with
  | nil =>
    simp only [List.nil_append]
    exact infixOfList_of_isPrefixOf a (a ++ post) (isPrefixOf_self_append a post)
  | cons c pre ih =>
    have hsh : (c :: pre) ++ a ++ post = c :: (pre ++ a ++ post) := by simp
    rw [hsh, infixOfList]
    rw [ih, Bool.or_true]

theorem strIncludes_middle (pre mid post : String) :
    strIncludes (pre ++ mid ++ post) mid = true := by
  unfold strIncludes
  have hd : (pre ++ mid ++ post).data = pre.data ++ mid.data ++ post.data := by
    simp [String.data_append]
  rw [hd]
  exact infixOfList_append mid.data pre.data post.data

theorem errorRequestMessage_contains (e m : String) :
    strIncludes (errorRequestMessage e m) e = true
      ∧ strIncludes (errorRequestMessage e m) m = true := by
  constructor
  · have h : errorRequestMessage e m
        = "Error while requesting /" ++ e ++ (": " ++ m) := by
      unfold errorRequestMessage; rw [String.append_assoc]
    rw [h]
    exact strIncludes_middle "Error while requesting /" e (": " ++ m)
  · have h := strIncludes_middle ("Error while requesting /" ++ e ++ ": ") m ""
    rw [String.append_empty] at h
    exact h

end Aiowatttime

namespace Aiowatttime

/-- C7 counterexample: the typed invalid-credentials error raised for a
boundary signal on the login endpoint carries the fixed text Invalid
credentials, which contains neither the endpoint path login nor any transport
error text — so not every typed error carries the endpoint path. -/
theorem C7_counterexample :
    (async_request oAllBoundary 3 "get" "login" true sInit).2
        = .err (PyError.invalidCredentials "Invalid credentials")
      ∧ strIncludes (PyError.invalidCredentials "Invalid credentials").text
          "login" = false :=
  ⟨rfl, rfl⟩

/-- C7 (amended): typed errors produced by the HTTP-failure classifier from a
parsed body with a message or error field carry a message equal to the
classifier template, which contains both the endpoint path and the extracted
human-readable text; invalid-credentials errors, in contrast, always carry
exactly the fixed text Invalid credentials, with no endpoint path and no
transport error text. -/
theorem C7_error_message_contents :
    (∀ (e : String) (d : List (String × String)) (msg : String),
        dictGet d "message" = some msg →
        (raise_error e d false).text = errorRequestMessage e msg
          ∧ (raise_error e d false).isWattTimeError = true)
      ∧ (∀ (e : String) (d : List (String × String)) (msg : String),
        dictGet d "message" = none → dictGet d "error" = some msg →
        (raise_error e d false).text = errorRequestMessage e msg
          ∧ (raise_error e d false).isWattTimeError = true)
      ∧ (∀ (e msg : String),
        strIncludes (errorRequestMessage e msg) e = true
          ∧ strIncludes (errorRequestMessage e msg) msg = true)
      ∧ (∀ (o : Resp) (r : Int) (m e : String) (b : Bool) (s s1 : ClientState)
          (t : String),
        async_request o r m e b s = (s1, .err (PyError.invalidCredentials t)) →
        t = "Invalid credentials") := by
  refine ⟨?_, ?_, errorRequestMessage_contains, ?_⟩
  · intro e d msg hm
    have hrw : raise_error e d false = raiseMatchedError e msg := by
      simp [raise_error, hm]
    rw [hrw]
    exact ⟨raiseMatchedError_text e msg, raiseMatchedError_isWattTimeError e msg⟩
  · intro e d msg hm he
    have hrw : raise_error e d false = raiseMatchedError e msg := by
      simp [raise_error, hm, he]
    rw [hrw]
    exact ⟨raiseMatchedError_text e msg, raiseMatchedError_isWattTimeError e msg⟩
  · intro o r m e b s s1 t h
    unfold async_request at h
    exact requestLoop_invalidCredentials_text o r m e b r.toNat none s s1 t h

/-- C7 witness: the amended theorem applied to the password endpoint with a
concrete message body. -/
theorem C7_error_message_contents_witness :
    (raise_error "password" [("message", "A problem occurred")] false).text
        = errorRequestMessage "password" "A problem occurred"
      ∧ (raise_error "password" [("message", "A problem occurred")]
          false).isWattTimeError = true :=
  C7_error_message_contents.1 "password" [("message", "A problem occurred")]
    "A problem occurred" rfl

end Aiowatttime
